import Mathlib

/-!
A shallow embedding of `redbot/core/utils/antispam.py` and
`redbot/core/utils/safety.py` from Kreusada/Red-DiscordBot.

Times are modelled as integers (a number of seconds): `datetime.utcnow()`
becomes an explicit `now : Int` argument of each operation, and a
`timedelta` becomes its total number of seconds.  Python `int` is modelled
as `Int`.  The mutation of `self.__event_timestamps` becomes explicit state
passing on the `AntiSpam` structure.
-/

/-- `AntiSpamInterval = namedtuple("AntiSpamInterval", ["period", "frequency"])`:
`period` is the window duration (seconds), `frequency` the maximum count. -/
structure AntiSpamInterval where
  period : Int
  frequency : Int
deriving Repr, DecidableEq

/-- The state an `AntiSpam` instance holds: `self.__event_timestamps`,
`self.__intervals` and `self.__discard_after`. -/
structure AntiSpam where
  event_timestamps : List Int
  intervals : List AntiSpamInterval
  discard_after : Int
deriving Repr, DecidableEq

/-- `AntiSpam.default_intervals`: `(5s, 3), (1min, 5), (1hr, 10), (1day, 24)`,
with each `timedelta` rendered in seconds. -/
def default_intervals : List (Int × Int) :=
  [(5, 3), (60, 5), (3600, 10), (86400, 24)]

/-- Python `max([x.period for x in ...])` over a list of intervals.  On `[]`
Python raises `ValueError`; `AntiSpam.init` never evaluates it there (the
default intervals are substituted first), so the `[]` case returns 0. -/
def maxPeriod : List AntiSpamInterval → Int
  | [] => 0
  | x :: xs => xs.foldl (fun a i => max a i.period) x.period

/-- `AntiSpam.__init__(self, intervals)`: an empty (falsy) list is replaced
by `default_intervals`; each pair becomes an `AntiSpamInterval`;
`__discard_after` caches the maximum period; the timestamp log starts empty. -/
def AntiSpam.init (intervals : List (Int × Int)) : AntiSpam :=
  let itvs := if intervals.isEmpty then default_intervals else intervals
  let ivs := itvs.map fun x => AntiSpamInterval.mk x.1 x.2
  { event_timestamps := []
    intervals := ivs
    discard_after := maxPeriod ivs }

/-- `AntiSpam.__interval_check(self, interval)`:
`len([t for t in self.__event_timestamps if (t + interval.period) > datetime.utcnow()])
 >= interval.frequency`. -/
def interval_check (s : AntiSpam) (now : Int) (interval : AntiSpamInterval) : Bool :=
  decide (interval.frequency ≤
    ((s.event_timestamps.filter fun t => decide (t + interval.period > now)).length : Int))

/-- `AntiSpam.spammy` (property): `any(self.__interval_check(x) for x in self.__intervals)`. -/
def spammy (s : AntiSpam) (now : Int) : Bool :=
  s.intervals.any fun x => interval_check s now x

/-- `AntiSpam.spammy` read as a state transformer: the property's body reads
`self` and assigns to no field, so the state it returns is the state it was
called on. -/
def spammyRun (s : AntiSpam) (now : Int) : Bool × AntiSpam :=
  (s.intervals.any fun x => interval_check s now x, s)

/-- `AntiSpam.stamp(self)`: appends `datetime.utcnow()` to the log, then
keeps only the timestamps `t` with `t + self.__discard_after > datetime.utcnow()`. -/
def stamp (s : AntiSpam) (now : Int) : AntiSpam :=
  { s with
    event_timestamps :=
      (s.event_timestamps ++ [now]).filter fun t => decide (t + s.discard_after > now) }

/-! ### `safety.py` -/

/-- A warning emitted through `warnings.warn(message, ..., category=...)`. -/
structure PyWarning where
  message : String
  category : String
deriving Repr, DecidableEq

/-- A Python callable as `safety.py` sees one: a `__name__` (read by
`f"{func.__name__} is unsafe for use"`) and a call map that either returns a
value or raises (modelled with `Except`). -/
structure PyFunction (α β : Type) where
  name : String
  call : α → Except String β

/-- The wrapped callable `get_wrapped` produced in `safety.py`: same
`__name__` (via `functools.wraps`), and each call emits a list of warnings
alongside the original outcome. -/
structure WrappedFunction (α β : Type) where
  name : String
  call : α → List PyWarning × Except String β

/-- Python `message or default` for `message : Optional[str]`: `None` and
the empty string are falsy, so both fall back to `default`. -/
def strOr (message : Option String) (default : String) : String :=
  match message with
  | none => default
  | some m => if m = "" then default else m

/-- `unsafe(function, message=None)` from `safety.py` (named `unsafeDecorator`
here because `unsafe` is a Lean keyword): returns the inner `wrapper`, a
decorator that, applied to `func`, yields `get_wrapped`, which warns with
`message or f"{func.__name__} is unsafe for use"` (category `RuntimeWarning`)
and then calls `func` with the same arguments.  The `function` argument is
not used by the body. -/
def unsafeDecorator {α β : Type} (function : PyFunction α β) (message : Option String) :
    PyFunction α β → WrappedFunction α β :=
  fun func =>
    { name := func.name
      call := fun a =>
        ([⟨strOr message (func.name ++ " is unsafe for use"), "RuntimeWarning"⟩],
         func.call a) }

/-- `warn_unsafe(function, message=None)` from `safety.py` (named
`warnUnsafe` here): builds the same inner `wrapper` as the decorator form
and returns `wrapper(function)`. -/
def warnUnsafe {α β : Type} (function : PyFunction α β) (message : Option String) :
    WrappedFunction α β :=
  (fun func =>
    { name := func.name
      call := fun a =>
        ([⟨strOr message (func.name ++ " is unsafe for use"), "RuntimeWarning"⟩],
         func.call a) } : PyFunction α β → WrappedFunction α β) function

/-- A concrete callable used to evaluate the wrappers on explicit inputs:
`__name__` is `"frobnicate"` and it returns its argument. -/
def frobnicate : PyFunction Nat Nat :=
  { name := "frobnicate", call := fun n => Except.ok n }

/-- A second concrete callable, distinct from `frobnicate`: `__name__` is
`"melt"` and it always raises. -/
def melt : PyFunction Nat Nat :=
  { name := "melt", call := fun _ => Except.error "boom" }

/-! ### Helper lemmas about `maxPeriod` -/

theorem le_foldl_max (xs : List AntiSpamInterval) (a : Int) :
    a ≤ xs.foldl (fun b i => max b i.period) a := by
  induction xs generalizing a with
  | nil => exact le_refl a
  | cons x xs ih => exact le_trans (le_max_left a x.period) (ih (max a x.period))

theorem mem_le_foldl_max (i : AntiSpamInterval) (xs : List AntiSpamInterval) (a : Int)
    (h : i ∈ xs) : i.period ≤ xs.foldl (fun b j => max b j.period) a := by
  induction xs generalizing a with
  | nil => cases h
  | cons x xs ih =>
    rcases List.mem_cons.mp h with rfl | hx
    · exact le_trans (le_max_right a i.period) (le_foldl_max xs (max a i.period))
    · exact ih (max a x.period) hx

theorem period_le_maxPeriod (i : AntiSpamInterval) (xs : List AntiSpamInterval)
    (h : i ∈ xs) : i.period ≤ maxPeriod xs := by
  cases xs with
  | nil => cases h
  | cons x xs =>
    rcases List.mem_cons.mp h with rfl | hx
    · exact le_foldl_max xs i.period
    · exact mem_le_foldl_max i xs x.period hx

theorem foldl_max_eq_base_or_mem (xs : List AntiSpamInterval) (a : Int) :
    xs.foldl (fun b i => max b i.period) a = a ∨
      ∃ i ∈ xs, xs.foldl (fun b i => max b i.period) a = i.period := by
  induction xs generalizing a with
  | nil => exact Or.inl rfl
  | cons x xs ih =>
    have hstep : (x :: xs).foldl (fun b i => max b i.period) a
        = xs.foldl (fun b i => max b i.period) (max a x.period) := rfl
    rcases ih (max a x.period) with h | ⟨i, hi, he⟩
    · rcases le_total x.period a with hle | hle
      · exact Or.inl (by rw [hstep, h, max_eq_left hle])
      · exact Or.inr ⟨x, List.mem_cons_self x xs, by rw [hstep, h, max_eq_right hle]⟩
    · exact Or.inr ⟨i, List.mem_cons_of_mem x hi, by rw [hstep, he]⟩

theorem maxPeriod_mem (x : AntiSpamInterval) (xs : List AntiSpamInterval) :
    ∃ i ∈ x :: xs, maxPeriod (x :: xs) = i.period := by
  rcases foldl_max_eq_base_or_mem xs x.period with h | ⟨i, hi, he⟩
  · exact ⟨x, List.mem_cons_self x xs, h⟩
  · exact ⟨i, List.mem_cons_of_mem x hi, he⟩

theorem init_intervals_ne_nil (l : List (Int × Int)) :
    (AntiSpam.init l).intervals ≠ [] := by
  cases l with
  | nil => simp [AntiSpam.init, default_intervals]
  | cons x xs => simp [AntiSpam.init]

/-! ### Claim theorems -/

/-- C1: for every tracker state, log contents and time `now`, `spammy` is
true iff some configured interval `(period, frequency)` has at least
`frequency` timestamps `t` in the log with `t + period > now` — a logical OR
across the intervals, each checked independently. -/
theorem spammy_iff_some_threshold_breached (s : AntiSpam) (now : Int) :
    spammy s now = true ↔
      ∃ i ∈ s.intervals,
        i.frequency ≤
          ((s.event_timestamps.filter fun t => decide (t + i.period > now)).length : Int) := by
  simp [spammy, interval_check, List.any_eq_true]

/-- C4: `spammy` is a pure read: run as a state transformer it returns the
state unchanged, so with no intervening `stamp` and no clock advance a
repeated call returns the same boolean. -/
theorem spammy_pure_and_idempotent (s : AntiSpam) (now : Int) :
    (spammyRun s now).2 = s ∧
    (spammyRun (spammyRun s now).2 now).1 = (spammyRun s now).1 ∧
    (spammyRun s now).1 = spammy s now :=
  ⟨rfl, rfl, rfl⟩

/-- C7: with the single threshold `(5 s, 3)`, recording two events at time 0,
advancing the clock 6 seconds and recording one more leaves the tracker not
spammy: the first two events have aged out of the 5-second window. -/
theorem scenario_b_not_spammy :
    spammy (stamp (stamp (stamp (AntiSpam.init [((5 : Int), 3)]) 0) 0) 6) 6 = false := by
  decide

/-- C2: for a constructed tracker with any prior log contents, every
timestamp that survives a `stamp` at time `now` is younger than the largest
configured window (`now - t < maxWindow`). -/
theorem stamp_prunes_old_entries (l : List (Int × Int)) (prior : List Int) (now t : Int)
    (h : t ∈ (stamp { AntiSpam.init l with event_timestamps := prior } now).event_timestamps) :
    now - t < maxPeriod (AntiSpam.init l).intervals := by
  have hd : ({ AntiSpam.init l with event_timestamps := prior } : AntiSpam).discard_after
      = maxPeriod (AntiSpam.init l).intervals := rfl
  simp only [stamp, List.mem_filter, decide_eq_true_eq] at h
  have hd2 : (AntiSpam.init l).discard_after = maxPeriod (AntiSpam.init l).intervals := rfl
  rw [hd2] at h
  linarith [h.2]

/-- C2 witness: at the tracker built from `[(5, 3)]` with prior log
`[-10, 0]`, the timestamp 0 survives a `stamp` at time 0 and is younger
than the 5-second window. -/
theorem stamp_prunes_old_entries_witness :
    (0 : Int) - 0 < maxPeriod (AntiSpam.init [((5 : Int), 3)]).intervals :=
  stamp_prunes_old_entries [((5 : Int), 3)] [-10, 0] 0 0 (by decide)

/-- C5: empty construction substitutes the canonical default thresholds, in
order, `(5 s, 3), (60 s, 5), (3600 s, 10), (86400 s, 24)` (so its cached
maximum window is one day), and for every construction the cached
`discard_after` bounds every configured period and is attained by one. -/
theorem init_defaults_and_max_window (l : List (Int × Int)) :
    (AntiSpam.init []).intervals =
      [⟨5, 3⟩, ⟨60, 5⟩, ⟨3600, 10⟩, ⟨86400, 24⟩] ∧
    (AntiSpam.init []).discard_after = 86400 ∧
    (∀ i ∈ (AntiSpam.init l).intervals, i.period ≤ (AntiSpam.init l).discard_after) ∧
    ∃ i ∈ (AntiSpam.init l).intervals, i.period = (AntiSpam.init l).discard_after := by
  refine ⟨by decide, by decide, ?_, ?_⟩
  · intro i hi
    exact period_le_maxPeriod i (AntiSpam.init l).intervals hi
  · rcases hne : (AntiSpam.init l).intervals with _ | ⟨x, xs⟩
    · exact absurd hne (init_intervals_ne_nil l)
    · have hd : (AntiSpam.init l).discard_after = maxPeriod (AntiSpam.init l).intervals := rfl
      rw [hd, hne]
      rcases maxPeriod_mem x xs with ⟨i, hi, he⟩
      exact ⟨i, hi, he.symm⟩

/-- C6: an event timestamped exactly at the window boundary
(`t + period = now`) is expired: appending it changes neither the tally of
live timestamps for that interval nor the outcome of the interval check. -/
theorem boundary_event_does_not_count (s : AntiSpam) (i : AntiSpamInterval) (now t : Int)
    (h : t + i.period = now) :
    ((s.event_timestamps ++ [t]).filter fun x => decide (x + i.period > now)).length =
      (s.event_timestamps.filter fun x => decide (x + i.period > now)).length ∧
    interval_check { s with event_timestamps := s.event_timestamps ++ [t] } now i =
      interval_check s now i := by
  have hlen :
      ((s.event_timestamps ++ [t]).filter fun x => decide (x + i.period > now)).length =
        (s.event_timestamps.filter fun x => decide (x + i.period > now)).length := by
    rw [List.filter_append]
    have : ([t].filter fun x => decide (x + i.period > now)) = [] := by
      simp [h]
    rw [this, List.append_nil]
  have h2 : interval_check { s with event_timestamps := s.event_timestamps ++ [t] } now i
      = decide (i.frequency ≤
          (((s.event_timestamps ++ [t]).filter
            fun x => decide (x + i.period > now)).length : Int)) := rfl
  exact ⟨hlen, by rw [h2, hlen]; rfl⟩

/-- C6 witness: with the tracker built from `[(5, 3)]`, the interval
`(5, 3)` and `now = 5`, appending the boundary event `t = 0` (where
`0 + 5 = 5`) changes neither the tally nor the check. -/
theorem boundary_event_does_not_count_witness :
    (((AntiSpam.init [((5 : Int), 3)]).event_timestamps ++ [(0 : Int)]).filter
        fun x => decide (x + (AntiSpamInterval.mk 5 3).period > (5 : Int))).length =
      ((AntiSpam.init [((5 : Int), 3)]).event_timestamps.filter
        fun x => decide (x + (AntiSpamInterval.mk 5 3).period > (5 : Int))).length ∧
    interval_check
        { AntiSpam.init [((5 : Int), 3)] with
          event_timestamps := (AntiSpam.init [((5 : Int), 3)]).event_timestamps ++ [(0 : Int)] }
        5 (AntiSpamInterval.mk 5 3) =
      interval_check (AntiSpam.init [((5 : Int), 3)]) 5 (AntiSpamInterval.mk 5 3) :=
  boundary_event_does_not_count (AntiSpam.init [((5 : Int), 3)])
    (AntiSpamInterval.mk 5 3) 5 0 (by decide)

/-- C10: when every supplied window is strictly positive, the timestamp a
`stamp` appends survives that same call's prune, so the log is non-empty
immediately after every `stamp`. -/
theorem stamp_keeps_new_event (l : List (Int × Int)) (prior : List Int) (now : Int)
    (hpos : ∀ p ∈ l, 0 < p.1) :
    now ∈ (stamp { AntiSpam.init l with event_timestamps := prior } now).event_timestamps ∧
    (stamp { AntiSpam.init l with event_timestamps := prior } now).event_timestamps ≠ [] := by
  have hall : ∀ i ∈ (AntiSpam.init l).intervals, 0 < i.period := by
    intro i hi
    cases l with
    | nil =>
      have hd : (AntiSpam.init ([] : List (Int × Int))).intervals =
          [⟨5, 3⟩, ⟨60, 5⟩, ⟨3600, 10⟩, ⟨86400, 24⟩] := by decide
      rw [hd] at hi
      simp only [List.mem_cons, List.not_mem_nil, or_false] at hi
      rcases hi with rfl | rfl | rfl | rfl
      all_goals decide
    | cons x xs =>
      have hint : (AntiSpam.init (x :: xs)).intervals =
          (x :: xs).map fun p => AntiSpamInterval.mk p.1 p.2 := rfl
      rw [hint] at hi
      rcases List.mem_map.mp hi with ⟨p, hp, rfl⟩
      exact hpos p hp
  have hdpos : 0 < (AntiSpam.init l).discard_after := by
    rcases hne : (AntiSpam.init l).intervals with _ | ⟨x, xs⟩
    · exact absurd hne (init_intervals_ne_nil l)
    · have hd : (AntiSpam.init l).discard_after = maxPeriod (AntiSpam.init l).intervals := rfl
      rcases maxPeriod_mem x xs with ⟨i, hi, he⟩
      rw [hd, hne, he]
      exact hall i (by rw [hne]; exact hi)
  have hmem : now ∈
      (stamp { AntiSpam.init l with event_timestamps := prior } now).event_timestamps := by
    simp only [stamp, List.mem_filter, decide_eq_true_eq]
    exact ⟨List.mem_append_right prior (List.mem_singleton.mpr rfl), by linarith⟩
  exact ⟨hmem, List.ne_nil_of_mem hmem⟩

/-- C10 witness: for the tracker built from `[(5, 3)]` with an empty prior
log, a `stamp` at time 0 leaves the freshly appended timestamp in a
non-empty log. -/
theorem stamp_keeps_new_event_witness :
    (0 : Int) ∈
      (stamp { AntiSpam.init [((5 : Int), 3)] with event_timestamps := [] } 0).event_timestamps ∧
    (stamp { AntiSpam.init [((5 : Int), 3)] with
        event_timestamps := [] } 0).event_timestamps ≠ [] :=
  stamp_keeps_new_event [((5 : Int), 3)] [] 0 (by decide)

/-- C3 counterexample: construction with the threshold `(-1, 0)` — a
negative window and a non-positive limit — does not fail: it returns an
ordinary tracker holding exactly that threshold, with an empty log. -/
theorem init_no_validation_counterexample :
    (AntiSpam.init [((-1 : Int), (0 : Int))]).intervals = [⟨-1, 0⟩] ∧
    (AntiSpam.init [((-1 : Int), (0 : Int))]).event_timestamps = [] ∧
    (AntiSpam.init [((-1 : Int), (0 : Int))]).discard_after = -1 := by
  decide

/-- C3 amended: construction performs no validation at all: every non-empty
threshold list, including one with a non-positive limit or a non-positive
window, yields a tracker whose thresholds are exactly the supplied pairs
and whose log is empty. -/
theorem init_accepts_any_thresholds (l : List (Int × Int)) (h : l ≠ []) :
    (AntiSpam.init l).intervals = (l.map fun x => AntiSpamInterval.mk x.1 x.2) ∧
    (AntiSpam.init l).event_timestamps = [] := by
  constructor
  · have hne : l.isEmpty = false := by
      cases l with
      | nil => exact absurd rfl h
      | cons x xs => rfl
    simp [AntiSpam.init, hne]
  · rfl

/-- C3 amended witness: the invalid threshold list `[(-1, 0)]` is accepted
as-is. -/
theorem init_accepts_any_thresholds_witness :
    (AntiSpam.init [((-1 : Int), (0 : Int))]).intervals =
      ([((-1 : Int), (0 : Int))].map fun x => AntiSpamInterval.mk x.1 x.2) ∧
    (AntiSpam.init [((-1 : Int), (0 : Int))]).event_timestamps = [] :=
  init_accepts_any_thresholds [((-1 : Int), (0 : Int))] (by decide)

/-- C8 counterexample: supplying the message `""` does not make the wrapper
warn with the supplied message: Python `or` treats the empty string as
falsy, so the call warns with the generated default instead. -/
theorem warn_empty_message_counterexample :
    ((warnUnsafe frobnicate (some "")).call 0).1 =
      [⟨"frobnicate is unsafe for use", "RuntimeWarning"⟩] ∧
    ("frobnicate is unsafe for use" : String) ≠ "" := by
  exact ⟨rfl, by decide⟩

/-- C8 amended: for every target callable, optional message and argument,
the wrapped callable (built by `warn_unsafe`, or by applying the decorator
`unsafe` returns) keeps the target's name, emits exactly one non-fatal
RuntimeWarning — carrying the supplied message when that message is present
and non-empty, and otherwise the generated default
`"<name> is unsafe for use"` — and then invokes the original callable on
the same argument, returning its result or propagating its error
unchanged. -/
theorem wrapped_warns_then_calls {α β : Type} (f g : PyFunction α β)
    (message : Option String) (a : α) :
    (warnUnsafe f message).name = f.name ∧
    ((warnUnsafe f message).call a).1 =
      [⟨strOr message (f.name ++ " is unsafe for use"), "RuntimeWarning"⟩] ∧
    (∀ m, message = some m → m ≠ "" →
      strOr message (f.name ++ " is unsafe for use") = m) ∧
    ((message = none ∨ message = some "") →
      strOr message (f.name ++ " is unsafe for use") = f.name ++ " is unsafe for use") ∧
    ((warnUnsafe f message).call a).2 = f.call a ∧
    unsafeDecorator g message f = warnUnsafe f message := by
  refine ⟨rfl, rfl, ?_, ?_, rfl, rfl⟩
  · rintro m rfl hm
    simp [strOr, hm]
  · rintro (rfl | rfl)
    · rfl
    · rfl

/-- C9: the value `unsafe` returns does not depend on its `function`
argument: for any two callables and a fixed message the produced decorators
are the same function, and the default warning name is read from the
callable the decorator is later applied to. -/
theorem unsafeDecorator_ignores_function {α β : Type} (f1 f2 g : PyFunction α β)
    (m : Option String) (a : α) :
    unsafeDecorator f1 m = unsafeDecorator f2 m ∧
    ((unsafeDecorator f1 m g).call a).1 =
      [⟨strOr m (g.name ++ " is unsafe for use"), "RuntimeWarning"⟩] :=
  ⟨rfl, rfl⟩
